import Mathlib

/-!
Shallow embedding of the result-correlation core of `cucumber-java-runner`
(`src/resultProcessor.ts`, `src/cucumberRunner.ts`, `src/testController.ts`).

JavaScript strings are modelled as Lean `String` (and, where character-level
processing is needed, as `List Char`).  JavaScript `undefined`-able fields are
modelled as `Option`; the `x || y` truthiness idiom is modelled by explicit
helpers (`jsOrOptStr`, `jsOrNat`) that treat `undefined`, the empty string and
the number `0` as falsy, exactly as JavaScript does.
-/

namespace CucumberRunner

/-- JS `a || b` for an optional string `a`: `undefined` and `""` are falsy. -/
def jsOrOptStr (a : Option String) (b : String) : String :=
  match a with
  | none => b
  | some s => if s = "" then b else s

/-- JS `a || b` for numbers: `0` is falsy (lines are natural numbers here). -/
def jsOrNat (a b : Nat) : Nat :=
  if a = 0 then b else a

/-- JS template interpolation of a possibly-`undefined` string value. -/
def jsShowOptStr (a : Option String) : String :=
  match a with
  | none => "undefined"
  | some s => s

/-! ## Data model of the Cucumber JSON report (as consumed by the source) -/

/-- Model of `step.result` and `hook.result`: `{ status?, error_message? }`. -/
structure StepResult where
  status : Option String
  error_message : Option String
  deriving Repr, DecidableEq

/-- A step entry: `{ name?, keyword?, line, result? }`. -/
structure Step where
  name : Option String
  keyword : Option String
  line : Nat
  result : Option StepResult
  deriving Repr, DecidableEq

/-- A hook entry: `{ match?.location?, result? }` (the optional chain
`hook.match?.location` is flattened into one optional field). -/
structure Hook where
  matchLocation : Option String
  result : Option StepResult
  deriving Repr, DecidableEq

/-- An element entry (`scenario`/`background`):
`{ type?, name?, line, steps?, before?, after? }`.  A `none` list field
models an absent (non-array) field, as tested by `Array.isArray`. -/
structure Element where
  type : Option String
  name : Option String
  line : Nat
  steps : Option (List Step)
  before : Option (List Hook)
  after : Option (List Hook)
  deriving Repr, DecidableEq

/-- A file entry of the report: `{ uri?, id?, elements? }`. -/
structure Feature where
  uri : Option String
  id : Option String
  elements : Option (List Element)
  deriving Repr, DecidableEq

/-- Record `FailedStepInfo` from `resultProcessor.ts`. -/
structure FailedStepInfo where
  name : String
  errorMessage : String
  line : Nat
  deriving Repr, DecidableEq

/-- Record `ScenarioResult` from `resultProcessor.ts`. -/
structure ScenarioResult where
  name : String
  line : Nat
  passed : Bool
  failedStep : Option FailedStepInfo
  deriving Repr, DecidableEq

/-! ## Scenario Classifier (body of the element loop of
`parseResultFileForFeature`, `resultProcessor.ts` lines 280–407) -/

/-- Computes `step?.result?.status || "no result"` (line 312). -/
def stepStatus (s : Step) : String :=
  jsOrOptStr (s.result.bind (·.status)) "no result"

/-- Computes `hook.result && hook.result.status !== "passed"` (lines 292, 379). -/
def hookFails (h : Hook) : Bool :=
  match h.result with
  | some r => decide (r.status ≠ some "passed")
  | none => false

/-- First failing hook of an optional hook array (`for … break` scan). -/
def firstFailingHook (hooks : Option (List Hook)) : Option Hook :=
  match hooks with
  | some hs => hs.find? hookFails
  | none => none

/-- Failure record built from a failing Before hook (lines 294–301). -/
def beforeFailedStep (scenarioLine : Nat) (h : Hook) : FailedStepInfo :=
  let hookLocation := jsOrOptStr h.matchLocation "Unknown location"
  let errorMsg :=
    jsOrOptStr (h.result.bind (·.error_message))
      ("Hook failed with status: " ++ jsShowOptStr (h.result.bind (·.status)))
  { name := "Before Hook Failed"
    errorMessage := "Hook Location: " ++ hookLocation ++ "\n\n" ++ errorMsg
    line := jsOrNat scenarioLine 0 }

/-- Failure record built from a failing After hook (lines 383–391). -/
def afterFailedStep (scenarioLine : Nat) (h : Hook) : FailedStepInfo :=
  let hookLocation := jsOrOptStr h.matchLocation "Unknown location"
  let errorMsg :=
    jsOrOptStr (h.result.bind (·.error_message))
      ("Hook failed with status: " ++ jsShowOptStr (h.result.bind (·.status)))
  { name := "After Hook Failed"
    errorMessage := "Hook Location: " ++ hookLocation ++ "\n\n" ++ errorMsg
    line := jsOrNat scenarioLine 0 }

/-- The step scan of lines 311–344: passed steps are skipped; any non-passed
step clears `scenarioPassed`; a skipped step is scanned past; the first
non-passed non-skipped step is captured and the loop breaks.  Returns the
pair `(scenarioPassed, failedStep)` for that loop. -/
def scanSteps (scenarioLine : Nat) : List Step → Bool × Option FailedStepInfo
  | [] => (true, none)
  | s :: rest =>
    let st := stepStatus s
    if st = "passed" then scanSteps scenarioLine rest
    else if st = "skipped" then
      let r := scanSteps scenarioLine rest
      (false, r.2)
    else
      (false, some
        { name := (jsOrOptStr s.keyword "").trim ++ " " ++ jsOrOptStr s.name "Unknown step"
          errorMessage :=
            jsOrOptStr (s.result.bind (·.error_message)) ("Step " ++ st)
          line := jsOrNat s.line (jsOrNat scenarioLine 0) })

/-- Computes `step?.result?.status === "skipped"` (lines 348–349). -/
def stepSkippedStrict (s : Step) : Bool :=
  s.result.bind (·.status) == some "skipped"

/-- The `Scenario Setup Error` record (lines 354–358). -/
def setupErrorStep (scenarioLine : Nat) : FailedStepInfo :=
  { name := "Scenario Setup Error"
    errorMessage :=
      "All steps were skipped. Check for errors in @Before hooks or step definitions."
    line := jsOrNat scenarioLine 0 }

/-- The `Empty Scenario` record (lines 366–370). -/
def emptyScenarioStep (scenarioLine : Nat) : FailedStepInfo :=
  { name := "Empty Scenario"
    errorMessage := "Scenario has no steps"
    line := jsOrNat scenarioLine 0 }

/-- Scenario Classifier: one iteration of the element loop of
`parseResultFileForFeature` (lines 280–407), producing a `ScenarioResult`. -/
def classifyElement (scenario : Element) : ScenarioResult :=
  let scenarioName := jsOrOptStr scenario.name "Unnamed scenario"
  let scenarioLine := scenario.line
  -- lines 290–307: Before hooks first
  let fsBefore := (firstFailingHook scenario.before).map (beforeFailedStep scenarioLine)
  -- lines 310–373: steps (only if no hook failure), all-skipped check, empty check
  let stepPhase : Bool × Option FailedStepInfo :=
    match fsBefore with
    | some f => (false, some f)
    | none =>
      match scenario.steps with
      | some steps =>
        if steps.length > 0 then
          let r := scanSteps scenarioLine steps
          match r.2 with
          | some f => (r.1, some f)
          | none =>
            if steps.all stepSkippedStrict then (false, some (setupErrorStep scenarioLine))
            else (r.1, none)
        else (false, some (emptyScenarioStep scenarioLine))
      | none => (false, some (emptyScenarioStep scenarioLine))
  -- lines 377–398: After hooks; an earlier failure keeps precedence
  let finalPhase : Bool × Option FailedStepInfo :=
    match firstFailingHook scenario.after with
    | some h =>
      (false,
        match stepPhase.2 with
        | some f => some f
        | none => some (afterFailedStep scenarioLine h))
    | none => stepPhase
  { name := scenarioName
    line := scenarioLine
    passed := finalPhase.1
    failedStep := finalPhase.2 }

/-! ## Path/Identity Matcher (`normalizePath`, `isSameFeaturePath`,
`resultProcessor.ts` lines 178–223).  String surgery is done on `List Char`. -/

/-- JS `String.prototype.split(c)` for a one-character separator:
always returns at least one (possibly empty) segment. -/
def jsSplit (c : Char) : List Char → List (List Char)
  | [] => [[]]
  | x :: xs =>
    if x = c then [] :: jsSplit c xs
    else
      match jsSplit c xs with
      | [] => [[x]]
      | h :: t => (x :: h) :: t

/-- JS `s.replace(/^pre…/, '')`: strip the prefix once if present. -/
def stripPrefixList (p l : List Char) : List Char :=
  if p.isPrefixOf l then l.drop p.length else l

/-- Function `normalizePath` (lines 178–186): strip `file://` then `file:` prefixes,
turn backslashes into slashes, strip a leading `./` then a leading `/`,
and lower-case. -/
def normalizePathChars (l : List Char) : List Char :=
  let l1 := stripPrefixList "file://".data l
  let l2 := stripPrefixList "file:".data l1
  let l3 := l2.map (fun c => if c = '\\' then '/' else c)
  let l4 := stripPrefixList "./".data l3
  let l5 := stripPrefixList "/".data l4
  l5.map Char.toLower

/-- Function `normalizePath` wrapped on `String`. -/
def normalizePath (filePath : String) : String :=
  ⟨normalizePathChars filePath.data⟩

/-- Function `isSameFeaturePath` (lines 192–223). -/
def isSameFeaturePath (fullPath relativePath : String) : Bool :=
  let normalizedFull := normalizePathChars fullPath.data
  let normalizedRelative := normalizePathChars relativePath.data
  -- exact match
  if normalizedFull = normalizedRelative then true
  -- full path ends with '/' + relative path
  else if List.isSuffixOf ('/' :: normalizedRelative) normalizedFull then true
  else
    let fullPathParts := jsSplit '/' normalizedFull
    let relativePathParts := jsSplit '/' normalizedRelative
    -- filenames must match
    if fullPathParts.getLastD [] ≠ relativePathParts.getLastD [] then false
    else if relativePathParts.length ≤ fullPathParts.length then
      -- fullPathParts.slice(-relativePathParts.length).join('/')
      let fullEnd :=
        List.intercalate ['/']
          (fullPathParts.drop (fullPathParts.length - relativePathParts.length))
      fullEnd = normalizedRelative
    else false

/-! ## Feature-Scoped Extractor (`parseResultFileForFeature`,
`resultProcessor.ts` lines 231–440, pure part after JSON validation). -/

/-- Computes `feature.uri || feature.id || ""` (line 261). -/
def featurePathOf (f : Feature) : String :=
  jsOrOptStr f.uri (jsOrOptStr f.id "")

/-- The element loop of lines 273–415: skip `type === "background"`,
classify everything else in order. -/
def processElements : List Element → List ScenarioResult
  | [] => []
  | e :: rest =>
    if e.type == some "background" then processElements rest
    else classifyElement e :: processElements rest

/-- Function `parseResultFileForFeature` after JSON validation (lines 259–426):
scan file entries; the first whose path matches and whose `elements` is an
array is processed and the scan stops; every other entry is skipped. -/
def parseResultFileForFeature (results : List Feature) (featureFilePath : String) :
    List ScenarioResult :=
  match results with
  | [] => []
  | f :: rest =>
    if isSameFeaturePath featureFilePath (featurePathOf f) then
      match f.elements with
      | some elems => processElements elems
      | none => parseResultFileForFeature rest featureFilePath
    else parseResultFileForFeature rest featureFilePath

/-! ## Feature Aggregator (`hasFeatureFailures`,
`resultProcessor.ts` lines 614–715, pure part after JSON validation). -/

/-- Computes `!step?.result || step.result.status !== "passed"` (line 686). -/
def stepNotPassedStrict (s : Step) : Bool :=
  match s.result with
  | some r => decide (r.status ≠ some "passed")
  | none => true

/-- One element of the aggregator loop (lines 653–698): a non-background
element fails on a failing Before hook, else a failing After hook, else a
non-passed step of a non-empty step array. -/
def elementFails (scenario : Element) : Bool :=
  if scenario.type == some "background" then false
  else
    let beforeFail := (firstFailingHook scenario.before).isSome
    let afterFail := (firstFailingHook scenario.after).isSome
    let stepFail :=
      match scenario.steps with
      | some steps => steps.length > 0 && steps.any stepNotPassedStrict
      | none => false
    beforeFail || afterFail || stepFail

/-- Function `hasFeatureFailures` after JSON validation (lines 640–710): the first
matching file entry decides the answer (`true` on the first failing element,
else `false`); a missing file entry is fail-open `false`. -/
def hasFeatureFailures (results : List Feature) (featureFilePath : String) : Bool :=
  match results with
  | [] => false
  | f :: rest =>
    if isSameFeaturePath featureFilePath (featurePathOf f) then
      match f.elements with
      | some elems => elems.any elementFails
      | none => false
    else hasFeatureFailures rest featureFilePath

/-! ## Batch verdict (`checkCucumberResults`, `cucumberRunner.ts`
lines 330–405, pure part after JSON validation). -/

/-- Negation of `!step.result || step.result.status !== "passed"` (line 372):
the step strictly passed. -/
def stepPassedStrict (s : Step) : Bool :=
  match s.result with
  | some r => r.status == some "passed"
  | none => false

/-- Pair `(scenarioPassed, hasSteps)` for one element of the batch loop
(lines 360–387): note that no `background` filter is applied here. -/
def checkScenarioFlags (scenario : Element) : Bool × Bool :=
  match scenario.steps with
  | some steps =>
    if steps.length > 0 then (steps.all stepPassedStrict, true)
    else (false, false)
  | none => (false, false)

/-- Condition `scenarioPassed && hasSteps` of line 382. -/
def elementPassesCheck (scenario : Element) : Bool :=
  (checkScenarioFlags scenario).1 && (checkScenarioFlags scenario).2

/-- Counter update of lines 361–387: `(total, passed, failed)`. -/
def checkCounters (acc : Nat × Nat × Nat) (scenario : Element) : Nat × Nat × Nat :=
  if elementPassesCheck scenario then (acc.1 + 1, acc.2.1 + 1, acc.2.2)
  else (acc.1 + 1, acc.2.1, acc.2.2 + 1)

/-- Element-counting step of the feature loop (lines 357–389): note that no
background filter is applied by `checkCucumberResults`. -/
def checkFoldFeature (acc : Nat × Nat × Nat) (f : Feature) : Nat × Nat × Nat :=
  match f.elements with
  | some elems => elems.foldl checkCounters acc
  | none => acc

/-- Function `checkCucumberResults` after JSON validation (lines 357–399):
count every element of every file entry, return `false` iff any failed. -/
def checkCucumberResults (results : List Feature) : Bool :=
  let counts := results.foldl checkFoldFeature (0, 0, 0)
  if counts.2.2 > 0 then false else true

/-! ## Tree Correlator (`markChildrenFromResults`,
`resultProcessor.ts` lines 448–542) -/

/-- Recursion core of the substring split, structural on a fuel argument so
that it stays kernel-computable; the fuel is always at least the length of
the remaining list, so the fallback branch is never reached when called
through `splitOnSub`. -/
def splitOnSubGo (s0 : Char) (srest : List Char) : Nat → List Char → List (List Char)
  | _, [] => [[]]
  | 0, rem => [rem]
  | fuel + 1, x :: xs =>
    if x = s0 && srest.isPrefixOf xs then
      [] :: splitOnSubGo s0 srest fuel (xs.drop srest.length)
    else
      match splitOnSubGo s0 srest fuel xs with
      | [] => [[x]]
      | h :: t => (x :: h) :: t

/-- JS `String.prototype.split(sep)` for a non-empty separator
`s0 :: srest`, scanning left to right. -/
def splitOnSub (s0 : Char) (srest : List Char) (l : List Char) : List (List Char) :=
  splitOnSubGo s0 srest l.length l

/-- JS `parseInt(s, 10)` restricted to what the source feeds it (a leading
run of decimal digits); `none` models `NaN`. -/
def parseIntJS (l : List Char) : Option Nat :=
  match l.takeWhile Char.isDigit with
  | [] => none
  | ds => some (ds.foldl (fun acc c => acc * 10 + (c.toNat - '0'.toNat)) 0)

/-- A test item of the caller's tree: `id`, optional `uri`, the line of its
own `range`/location, and children (built in `testController.ts`
lines 126–170). -/
inductive TestItem where
  | mk (id : String) (uri : Option String) (rangeLine : Nat) (children : List TestItem)

def TestItem.id : TestItem → String
  | .mk i _ _ _ => i

def TestItem.uri : TestItem → Option String
  | .mk _ u _ _ => u

def TestItem.rangeLine : TestItem → Nat
  | .mk _ _ r _ => r

def TestItem.children : TestItem → List TestItem
  | .mk _ _ _ cs => cs

/-- One `run.passed` / `run.failed` call recorded against a test item id;
a failure carries the message and the optional source location
`(uri, zero-based line)`. -/
inductive RunEvent where
  | passed (id : String)
  | failed (id : String) (message : String) (location : Option (String × Nat))
  deriving Repr, DecidableEq

def RunEvent.id : RunEvent → String
  | .passed i => i
  | .failed i _ _ => i

/-- JS `String.prototype.includes` on character lists. -/
def containsSub (sub : List Char) : List Char → Bool
  | [] => sub.isEmpty
  | x :: xs => sub.isPrefixOf (x :: xs) || containsSub sub xs

/-- Computes `child.id.split(":scenario:")` (line 479). -/
def splitScenarioId (id : String) : List (List Char) :=
  splitOnSub ':' "scenario:".data id.data

/-- Lines 479–527: match one child against the scenario results and emit the
`run.passed`/`run.failed` call, if any. -/
def eventsForItem (scenarioResults : List ScenarioResult) (id : String)
    (uri : Option String) : List RunEvent :=
  let childIdParts := splitScenarioId id
  if childIdParts.length > 1 then
    -- childIdParts[1].split(':')[0]
    let lineNumberPart := (jsSplit ':' (childIdParts.getD 1 [])).getD 0 []
    match parseIntJS lineNumberPart with
    | none => []  -- NaN never equals a result line
    | some childScenarioLine =>
      match scenarioResults.find? (fun r => r.line == childScenarioLine) with
      | none => []
      | some sr =>
        if sr.passed then [.passed id]
        else
          match sr.failedStep with
          | some fs =>
            let isScenarioLevelError :=
              containsSub "Hook Failed".data fs.name.data ||
              containsSub "Scenario Setup Error".data fs.name.data ||
              containsSub "Empty Scenario".data fs.name.data
            let message := fs.name ++ "\n\n" ++ fs.errorMessage
            let location :=
              match uri with
              | some u =>
                some (u, if isScenarioLevelError then sr.line - 1 else fs.line - 1)
              | none => none
            [.failed id message location]
          | none => [.failed id "Scenario failed" none]
  else []

mutual

/-- One child of `updateItemsRecursively`: its own match, then its subtree. -/
def markItem (scenarioResults : List ScenarioResult) : TestItem → List RunEvent
  | .mk id uri _ children =>
    eventsForItem scenarioResults id uri ++ markItems scenarioResults children

/-- Loop `updateItemsRecursively` over an item collection (lines 475–535). -/
def markItems (scenarioResults : List ScenarioResult) : List TestItem → List RunEvent
  | [] => []
  | t :: ts => markItem scenarioResults t ++ markItems scenarioResults ts

end

/-- Function `markChildrenFromResults` (lines 448–542), pure part: parse the report
for the feature, then walk `featureItem.children`. -/
def markChildrenFromResults (results : List Feature) (featureFilePath : String)
    (featureItem : TestItem) : List RunEvent :=
  let scenarioResults := parseResultFileForFeature results featureFilePath
  markItems scenarioResults featureItem.children

/-- The final state of a node after a sequence of run events: the last
`run.passed`/`run.failed` call recorded against its id wins. -/
def finalStateFor (events : List RunEvent) (id : String) : Option RunEvent :=
  (events.filter (fun e => e.id == id)).getLast?

/-! ## Batch Orchestrator (`runCucumberTestBatch`,
`cucumberRunner.ts` lines 38–93) -/

/-- Record `TestExecutionResult` (coverage data is irrelevant to the claims and
kept as a plain flag). -/
structure TestExecutionResult where
  passed : Bool
  resultFile : Option String
  deriving Repr, DecidableEq

/-- Outcome of `findGluePath` inside the `try` block: it may throw,
find glue paths, or find none. -/
inductive GlueLookup where
  | threw (msg : String)
  | found (paths : List String)
  | notFound
  deriving Repr, DecidableEq

/-- The environment a batch run interacts with: the workspace folder of the
first feature, the glue lookup outcome, the user's input-box answer, and the
outcome of `executeCucumberTestBatch` (which may throw). -/
structure BatchEnv where
  workspaceFolder : Option String
  glueLookup : GlueLookup
  userGlueInput : Option String
  executeOutcome : Except String TestExecutionResult

/-- Record `FeatureToRun` (`cucumberRunner.ts` lines 24–29). -/
structure FeatureToRun where
  uri : String
  relativePath : String
  lineNumber : Option Nat
  exampleLine : Option Nat
  deriving Repr, DecidableEq

/-- Function `runCucumberTestBatch` (lines 38–93): an `Except.error` value would model
an exception propagating to the caller; every branch of the source returns a
result instead, and the `try`/`catch` turns any thrown error into
`{ passed: false }`. -/
def runCucumberTestBatch (env : BatchEnv) (features : List FeatureToRun) :
    Except String TestExecutionResult :=
  if features.length = 0 then
    .ok { passed := false, resultFile := none }
  else
    match env.workspaceFolder with
    | none => .ok { passed := false, resultFile := none }
    | some _ =>
      -- try block: findGluePath, then executeCucumberTestBatch
      match env.glueLookup with
      | .threw _ => .ok { passed := false, resultFile := none }  -- catch
      | .notFound =>
        match env.userGlueInput with
        | none => .ok { passed := false, resultFile := none }
        | some _ =>
          match env.executeOutcome with
          | .ok r => .ok r
          | .error _ => .ok { passed := false, resultFile := none }  -- catch
      | .found _ =>
        match env.executeOutcome with
        | .ok r => .ok r
        | .error _ => .ok { passed := false, resultFile := none }  -- catch

/-! ## Helper lemmas about the classifier -/

theorem jsOrNat_zero (a : Nat) : jsOrNat a 0 = a := by
  unfold jsOrNat; split <;> omega

theorem jsOrOptStr_some_of_ne (s d : String) (h : s ≠ "") : jsOrOptStr (some s) d = s := by
  simp [jsOrOptStr, h]

/-- A step whose computed status is "passed" really carries `some "passed"`. -/
theorem status_some_of_passed (s : Step) (h : stepStatus s = "passed") :
    s.result.bind (·.status) = some "passed" := by
  unfold stepStatus jsOrOptStr at h
  cases hb : s.result.bind (·.status) with
  | none => rw [hb] at h; simp at h
  | some v =>
    rw [hb] at h
    by_cases hv : v = ""
    · simp [hv] at h
    · simp [hv] at h; rw [h]

theorem stepSkippedStrict_false_of_passed (s : Step) (h : stepStatus s = "passed") :
    stepSkippedStrict s = false := by
  unfold stepSkippedStrict
  rw [status_some_of_passed s h]
  decide

/-- The step scan over stretches of passed/skipped steps only records the
all-passed flag and captures no failing step. -/
theorem scanSteps_all_passed_skipped (L : Nat) (ss : List Step)
    (h : ∀ s ∈ ss, stepStatus s = "passed" ∨ stepStatus s = "skipped") :
    scanSteps L ss = (ss.all (fun s => stepStatus s == "passed"), none) := by
  induction ss with
  | nil => simp [scanSteps]
  | cons s rest ih =>
    have hrest := ih (fun t ht => h t (List.mem_cons_of_mem s ht))
    rcases h s (List.mem_cons_self s rest) with hp | hs
    · simp [scanSteps, hp, hrest]
    · have hne : stepStatus s ≠ "passed" := by rw [hs]; decide
      simp [scanSteps, hs, hne, hrest]

/-- The step scan breaks at the first step that is neither passed nor
skipped and captures exactly that step. -/
theorem scanSteps_break (L : Nat) (pre : List Step) (s : Step) (post : List Step)
    (hpre : ∀ t ∈ pre, stepStatus t = "passed" ∨ stepStatus t = "skipped")
    (hs1 : stepStatus s ≠ "passed") (hs2 : stepStatus s ≠ "skipped") :
    scanSteps L (pre ++ s :: post) =
      (false, some
        { name := (jsOrOptStr s.keyword "").trim ++ " " ++ jsOrOptStr s.name "Unknown step"
          errorMessage :=
            jsOrOptStr (s.result.bind (·.error_message)) ("Step " ++ stepStatus s)
          line := jsOrNat s.line (jsOrNat L 0) }) := by
  induction pre with
  | nil => simp [scanSteps, hs1, hs2]
  | cons t rest ih =>
    have hrest := ih (fun u hu => hpre u (List.mem_cons_of_mem t hu))
    rcases hpre t (List.mem_cons_self t rest) with hp | hs
    · simpa [scanSteps, hp] using hrest
    · have hne : stepStatus t ≠ "passed" := by rw [hs]; decide
      simp [scanSteps, hs, hne, hrest]

/-- C3: Before-hook precedence.  If some Before hook of an element fails
(has a result whose status is not "passed") then — whatever the steps
contain, in particular even when some step also has a non-passed status —
the classifier reports a failed verdict named "Before Hook Failed" whose
report line is the element's own line. -/
theorem before_hook_precedence (e : Element) (hbs : List Hook) (h : Hook)
    (hbefore : e.before = some hbs) (hmem : h ∈ hbs) (hfail : hookFails h = true)
    (_hstep : ∃ ss, e.steps = some ss ∧ ∃ s ∈ ss, stepStatus s ≠ "passed") :
    (classifyElement e).passed = false ∧
      ∃ fs, (classifyElement e).failedStep = some fs ∧
        fs.name = "Before Hook Failed" ∧ fs.line = e.line := by
  have hsome : (firstFailingHook e.before).isSome = true := by
    rw [hbefore]
    exact List.find?_isSome.mpr ⟨h, hmem, hfail⟩
  obtain ⟨h₀, hfind⟩ := Option.isSome_iff_exists.mp hsome
  cases hafter : firstFailingHook e.after with
  | none =>
    refine ⟨?_, beforeFailedStep e.line h₀, ?_, rfl, ?_⟩ <;>
      simp [classifyElement, hfind, hafter, beforeFailedStep, jsOrNat_zero]
  | some h₁ =>
    refine ⟨?_, beforeFailedStep e.line h₀, ?_, rfl, ?_⟩ <;>
      simp [classifyElement, hfind, hafter, beforeFailedStep, jsOrNat_zero]

/-- Witness for C3 at a concrete element: a failing Before hook and a
failing step together classify as "Before Hook Failed" at the element's
line 5. -/
theorem before_hook_precedence_witness :
    (classifyElement
      { type := none, name := some "H", line := 5
        steps := some [{ name := some "c", keyword := some "Then ", line := 6
                         result := some { status := some "failed", error_message := some "steperr" } }]
        before := some [{ matchLocation := some "Hooks.java:10"
                          result := some { status := some "failed", error_message := some "hookerr" } }]
        after := none }).passed = false := by
  have := before_hook_precedence
    { type := none, name := some "H", line := 5
      steps := some [{ name := some "c", keyword := some "Then ", line := 6
                       result := some { status := some "failed", error_message := some "steperr" } }]
      before := some [{ matchLocation := some "Hooks.java:10"
                        result := some { status := some "failed", error_message := some "hookerr" } }]
      after := none }
    [{ matchLocation := some "Hooks.java:10"
       result := some { status := some "failed", error_message := some "hookerr" } }]
    { matchLocation := some "Hooks.java:10"
      result := some { status := some "failed", error_message := some "hookerr" } }
    rfl (by decide) (by decide)
    ⟨[{ name := some "c", keyword := some "Then ", line := 6
        result := some { status := some "failed", error_message := some "steperr" } }],
      rfl, by decide⟩
  exact this.1

/-- Counterexample to C7 as stated: an element whose steps are one passed
step and one skipped step (no hooks at all) is classified as failed by the
code, not passed — any skipped step clears the passed flag. -/
theorem default_pass_rule_cex :
    (classifyElement
      { type := none, name := some "Mixed", line := 5
        steps := some
          [{ name := some "a", keyword := some "Given ", line := 6
             result := some { status := some "passed", error_message := none } },
           { name := some "b", keyword := some "When ", line := 7
             result := some { status := some "skipped", error_message := none } }]
        before := none, after := none }).passed = false := by decide

/-- C7 as amended: an element with no failing Before/After hook whose steps
all have status "passed" or "skipped", with at least one of each, is
classified as failed with no failure detail recorded (`failedStep` is
`none`): a skipped step clears the passed flag even though it is never
reported as the failure cause. -/
theorem default_pass_rule_amended (e : Element) (ss : List Step)
    (hb : firstFailingHook e.before = none) (ha : firstFailingHook e.after = none)
    (hsteps : e.steps = some ss)
    (hall : ∀ s ∈ ss, stepStatus s = "passed" ∨ stepStatus s = "skipped")
    (hp : ∃ s ∈ ss, stepStatus s = "passed")
    (hsk : ∃ s ∈ ss, stepStatus s = "skipped") :
    (classifyElement e).passed = false ∧ (classifyElement e).failedStep = none := by
  obtain ⟨sp, hsp, hsps⟩ := hp
  obtain ⟨sk, hskm, hsks⟩ := hsk
  have hscan := scanSteps_all_passed_skipped e.line ss hall
  have hallb : ss.all (fun s => stepStatus s == "passed") = false :=
    List.all_eq_false.mpr ⟨sk, hskm, by simp [hsks]⟩
  have hskall : ss.all stepSkippedStrict = false :=
    List.all_eq_false.mpr ⟨sp, hsp, by simp [stepSkippedStrict_false_of_passed sp hsps]⟩
  have hlen : 0 < ss.length := List.length_pos.mpr (List.ne_nil_of_mem hsp)
  constructor <;>
    simp [classifyElement, hb, ha, hsteps, hlen, hscan, hallb, hskall]

/-- Witness for C7's amended theorem at the concrete mixed element. -/
theorem default_pass_rule_amended_witness :
    (classifyElement
      { type := none, name := some "MixedW", line := 5
        steps := some
          [{ name := some "a", keyword := some "Given ", line := 6
             result := some { status := some "passed", error_message := none } },
           { name := some "b", keyword := some "When ", line := 7
             result := some { status := some "skipped", error_message := none } }]
        before := none, after := none }).passed = false := by
  have := default_pass_rule_amended
    { type := none, name := some "MixedW", line := 5
      steps := some
        [{ name := some "a", keyword := some "Given ", line := 6
           result := some { status := some "passed", error_message := none } },
         { name := some "b", keyword := some "When ", line := 7
           result := some { status := some "skipped", error_message := none } }]
      before := none, after := none }
    ([{ name := some "a", keyword := some "Given ", line := 6
        result := some { status := some "passed", error_message := none } },
      { name := some "b", keyword := some "When ", line := 7
        result := some { status := some "skipped", error_message := none } }])
    rfl rfl rfl (by decide)
    ⟨{ name := some "a", keyword := some "Given ", line := 6
       result := some { status := some "passed", error_message := none } },
      by decide⟩
    ⟨{ name := some "b", keyword := some "When ", line := 7
       result := some { status := some "skipped", error_message := none } },
      by decide⟩
  exact this.1

/-- Counterexample to C10 as stated: a Before hook whose result object
exists but carries no status does mark the element failed (the code compares
`undefined !== "passed"`), contrary to the claim that it is treated as
passed. -/
theorem missing_result_asymmetry_cex :
    (classifyElement
      { type := none, name := some "H2", line := 5
        steps := some [{ name := some "a", keyword := some "Given ", line := 6
                         result := some { status := some "passed", error_message := none } }]
        before := some [{ matchLocation := none
                          result := some { status := none, error_message := none } }]
        after := none }).passed = false := by decide

/-- C10 as amended.  Part 1: a hook lacking a result object never marks the
element failed — an element whose hooks all lack results and whose steps all
passed is classified passed.  Part 2: a hook with a result object lacking a
status does mark the element failed.  Part 3: a step lacking a result object
is a failing step with synthesized status "no result", eligible to be
reported as the failure cause. -/
theorem missing_result_asymmetry :
    (∀ (e : Element) (hbs has : List Hook) (ss : List Step),
      e.before = some hbs → (∀ h ∈ hbs, h.result = none) →
      e.after = some has → (∀ h ∈ has, h.result = none) →
      e.steps = some ss → ss ≠ [] → (∀ s ∈ ss, stepStatus s = "passed") →
      (classifyElement e).passed = true ∧ (classifyElement e).failedStep = none) ∧
    (∀ (e : Element) (hbs : List Hook) (h : Hook) (r : StepResult),
      e.before = some hbs → h ∈ hbs → h.result = some r → r.status = none →
      (classifyElement e).passed = false) ∧
    (∀ (e : Element) (pre : List Step) (s : Step) (post : List Step),
      firstFailingHook e.before = none →
      e.steps = some (pre ++ s :: post) →
      (∀ t ∈ pre, stepStatus t = "passed" ∨ stepStatus t = "skipped") →
      s.result = none →
      (classifyElement e).passed = false ∧
        ∃ fs, (classifyElement e).failedStep = some fs ∧
          fs.errorMessage = "Step no result") := by
  refine ⟨?_, ?_, ?_⟩
  · intro e hbs has ss hbefore hbnone hafter hanone hsteps hne hall
    have hfb : firstFailingHook e.before = none := by
      rw [hbefore]
      exact List.find?_eq_none.mpr (fun h hm => by simp [hookFails, hbnone h hm])
    have hfa : firstFailingHook e.after = none := by
      rw [hafter]
      exact List.find?_eq_none.mpr (fun h hm => by simp [hookFails, hanone h hm])
    have hscan := scanSteps_all_passed_skipped e.line ss (fun s hs => Or.inl (hall s hs))
    have halltrue : ss.all (fun s => stepStatus s == "passed") = true :=
      List.all_eq_true.mpr (fun s hs => by simp [hall s hs])
    obtain ⟨s0, hs0⟩ := List.exists_mem_of_ne_nil ss hne
    have hskall : ss.all stepSkippedStrict = false :=
      List.all_eq_false.mpr ⟨s0, hs0, by simp [stepSkippedStrict_false_of_passed s0 (hall s0 hs0)]⟩
    have hlen : 0 < ss.length := List.length_pos.mpr hne
    constructor <;>
      simp [classifyElement, hfb, hfa, hsteps, hlen, hscan, halltrue, hskall]
  · intro e hbs h r hbefore hmem hres hst
    have hfail : hookFails h = true := by simp [hookFails, hres, hst]
    have hsome : (firstFailingHook e.before).isSome = true := by
      rw [hbefore]
      exact List.find?_isSome.mpr ⟨h, hmem, hfail⟩
    obtain ⟨h₀, hfind⟩ := Option.isSome_iff_exists.mp hsome
    cases hafter : firstFailingHook e.after with
    | none => simp [classifyElement, hfind, hafter]
    | some h₁ => simp [classifyElement, hfind, hafter]
  · intro e pre s post hfb hsteps hpre hres
    have hst : stepStatus s = "no result" := by simp [stepStatus, hres, jsOrOptStr]
    have hs1 : stepStatus s ≠ "passed" := by rw [hst]; decide
    have hs2 : stepStatus s ≠ "skipped" := by rw [hst]; decide
    have hscan := scanSteps_break e.line pre s post hpre hs1 hs2
    have hlen : 0 < (pre ++ s :: post).length := by simp
    have hmsg :
        jsOrOptStr (s.result.bind fun x => x.error_message) ("Step " ++ stepStatus s) =
          "Step no result" := by
      simp [hres, hst, jsOrOptStr]
    cases hafter : firstFailingHook e.after with
    | none =>
      constructor
      · simp [classifyElement, hfb, hafter, hsteps, hlen, hscan]
      · refine ⟨{ name := (jsOrOptStr s.keyword "").trim ++ " " ++ jsOrOptStr s.name "Unknown step"
                  errorMessage :=
                    jsOrOptStr (s.result.bind fun x => x.error_message) ("Step " ++ stepStatus s)
                  line := jsOrNat s.line (jsOrNat e.line 0) }, ?_, hmsg⟩
        simp [classifyElement, hfb, hafter, hsteps, hlen, hscan]
    | some h₁ =>
      constructor
      · simp [classifyElement, hfb, hafter, hsteps, hlen, hscan]
      · refine ⟨{ name := (jsOrOptStr s.keyword "").trim ++ " " ++ jsOrOptStr s.name "Unknown step"
                  errorMessage :=
                    jsOrOptStr (s.result.bind fun x => x.error_message) ("Step " ++ stepStatus s)
                  line := jsOrNat s.line (jsOrNat e.line 0) }, ?_, hmsg⟩
        simp [classifyElement, hfb, hafter, hsteps, hlen, hscan]

/-- Witness for C10's amended theorem: all three parts instantiated at
concrete elements. -/
theorem missing_result_asymmetry_witness :
    ((classifyElement
      { type := none, name := some "W1", line := 5
        steps := some [{ name := some "a", keyword := some "Given ", line := 6
                         result := some { status := some "passed", error_message := none } }]
        before := some [{ matchLocation := none, result := none }]
        after := some [{ matchLocation := none, result := none }] }).passed = true) ∧
    ((classifyElement
      { type := none, name := some "W2", line := 5
        steps := some [{ name := some "a", keyword := some "Given ", line := 6
                         result := some { status := some "passed", error_message := none } }]
        before := some [{ matchLocation := none
                          result := some { status := none, error_message := none } }]
        after := none }).passed = false) ∧
    ((classifyElement
      { type := none, name := some "W3", line := 5
        steps := some [{ name := some "n", keyword := some "And ", line := 7
                         result := none }]
        before := none, after := none }).passed = false) := by
  refine ⟨?_, ?_, ?_⟩
  · exact (missing_result_asymmetry.1
      { type := none, name := some "W1", line := 5
        steps := some [{ name := some "a", keyword := some "Given ", line := 6
                         result := some { status := some "passed", error_message := none } }]
        before := some [{ matchLocation := none, result := none }]
        after := some [{ matchLocation := none, result := none }] }
      [{ matchLocation := none, result := none }]
      [{ matchLocation := none, result := none }]
      ([{ name := some "a", keyword := some "Given ", line := 6
          result := some { status := some "passed", error_message := none } }])
      rfl (by decide) rfl (by decide) rfl (by decide) (by decide)).1
  · exact missing_result_asymmetry.2.1
      { type := none, name := some "W2", line := 5
        steps := some [{ name := some "a", keyword := some "Given ", line := 6
                         result := some { status := some "passed", error_message := none } }]
        before := some [{ matchLocation := none
                          result := some { status := none, error_message := none } }]
        after := none }
      [{ matchLocation := none, result := some { status := none, error_message := none } }]
      { matchLocation := none, result := some { status := none, error_message := none } }
      { status := none, error_message := none }
      rfl (by decide) rfl rfl
  · exact (missing_result_asymmetry.2.2
      { type := none, name := some "W3", line := 5
        steps := some [{ name := some "n", keyword := some "And ", line := 7
                         result := none }]
        before := none, after := none }
      [] { name := some "n", keyword := some "And ", line := 7, result := none } []
      rfl rfl (by decide) rfl).1

/-- Counterexample to C2 as stated: for the steps
`[passed; skipped; failed with error message ""; skipped]` the claim demands
the reported message to equal the third step's error message `""`, but the
source evaluates `step.result?.error_message || "Step failed"` with
JavaScript truthiness, so the empty message is replaced by the synthesized
text "Step failed". -/
theorem skip_transparency_cex :
    ((classifyElement
      { type := none, name := some "S", line := 5
        steps := some
          [{ name := some "a", keyword := some "Given ", line := 6
             result := some { status := some "passed", error_message := none } },
           { name := some "b", keyword := some "When ", line := 7
             result := some { status := some "skipped", error_message := none } },
           { name := some "c", keyword := some "Then ", line := 8
             result := some { status := some "failed", error_message := some "" } },
           { name := some "d", keyword := some "And ", line := 9
             result := some { status := some "skipped", error_message := none } }]
        before := none, after := none }).failedStep.map (·.errorMessage)) =
      some "Step failed" ∧ "Step failed" ≠ "" := by
  constructor
  · decide
  · decide

/-- C2 as amended: for an element with no Before-hook failure whose steps
are `[passed; skipped; status X with error message errorMsg; skipped]`,
where X is neither "passed" nor "skipped", the error message is non-empty
and the third step's line is non-zero, the classifier returns a failed
verdict whose report line is the third step's own line and whose message is
`errorMsg` — the skipped steps are never reported as the cause. -/
theorem skip_transparency_amended (e : Element) (s1 s2 s3 s4 : Step)
    (r3 : StepResult) (X errorMsg : String)
    (hb : firstFailingHook e.before = none)
    (hsteps : e.steps = some [s1, s2, s3, s4])
    (h1 : stepStatus s1 = "passed") (h2 : stepStatus s2 = "skipped")
    (hr3 : s3.result = some r3) (hX : r3.status = some X)
    (hXp : X ≠ "passed") (hXs : X ≠ "skipped")
    (hmsg : r3.error_message = some errorMsg) (hne : errorMsg ≠ "")
    (hline : s3.line ≠ 0)
    (_h4 : stepStatus s4 = "skipped") :
    (classifyElement e).passed = false ∧
      ∃ fs, (classifyElement e).failedStep = some fs ∧
        fs.line = s3.line ∧ fs.errorMessage = errorMsg := by
  have hst3 : stepStatus s3 = (if X = "" then "no result" else X) := by
    simp [stepStatus, hr3, hX, jsOrOptStr]
  have hs3p : stepStatus s3 ≠ "passed" := by
    rw [hst3]; by_cases hX0 : X = "" <;> simp [hX0, hXp]
  have hs3s : stepStatus s3 ≠ "skipped" := by
    rw [hst3]; by_cases hX0 : X = "" <;> simp [hX0, hXs]
  have hpre : ∀ t ∈ [s1, s2], stepStatus t = "passed" ∨ stepStatus t = "skipped" := by
    intro t ht
    rcases List.mem_cons.mp ht with h | h
    · subst h; exact Or.inl h1
    · simp at h; subst h; exact Or.inr h2
  have hscan := scanSteps_break e.line [s1, s2] s3 [s4] hpre hs3p hs3s
  have hscan' : scanSteps e.line [s1, s2, s3, s4] =
      (false, some
        { name := (jsOrOptStr s3.keyword "").trim ++ " " ++ jsOrOptStr s3.name "Unknown step"
          errorMessage :=
            jsOrOptStr (s3.result.bind fun x => x.error_message) ("Step " ++ stepStatus s3)
          line := jsOrNat s3.line (jsOrNat e.line 0) }) := hscan
  have hmsg' :
      jsOrOptStr (s3.result.bind fun x => x.error_message) ("Step " ++ stepStatus s3) =
        errorMsg := by
    simp [hr3, hmsg, jsOrOptStr, hne]
  have hline' : jsOrNat s3.line (jsOrNat e.line 0) = s3.line := by
    simp [jsOrNat, hline]
  cases hafter : firstFailingHook e.after with
  | none =>
    constructor
    · simp [classifyElement, hb, hafter, hsteps, hscan']
    · refine ⟨{ name := (jsOrOptStr s3.keyword "").trim ++ " " ++ jsOrOptStr s3.name "Unknown step"
                errorMessage :=
                  jsOrOptStr (s3.result.bind fun x => x.error_message) ("Step " ++ stepStatus s3)
                line := jsOrNat s3.line (jsOrNat e.line 0) }, ?_, hline', hmsg'⟩
      simp [classifyElement, hb, hafter, hsteps, hscan']
  | some h₁ =>
    constructor
    · simp [classifyElement, hb, hafter, hsteps, hscan']
    · refine ⟨{ name := (jsOrOptStr s3.keyword "").trim ++ " " ++ jsOrOptStr s3.name "Unknown step"
                errorMessage :=
                  jsOrOptStr (s3.result.bind fun x => x.error_message) ("Step " ++ stepStatus s3)
                line := jsOrNat s3.line (jsOrNat e.line 0) }, ?_, hline', hmsg'⟩
      simp [classifyElement, hb, hafter, hsteps, hscan']

/-- Witness for C2's amended theorem: the steps
`[passed; skipped; failed("boom"); skipped]` classify as failed at line 8
with message "boom". -/
theorem skip_transparency_amended_witness :
    (classifyElement
      { type := none, name := some "SW", line := 5
        steps := some
          [{ name := some "a", keyword := some "Given ", line := 6
             result := some { status := some "passed", error_message := none } },
           { name := some "b", keyword := some "When ", line := 7
             result := some { status := some "skipped", error_message := none } },
           { name := some "c", keyword := some "Then ", line := 8
             result := some { status := some "failed", error_message := some "boom" } },
           { name := some "d", keyword := some "And ", line := 9
             result := some { status := some "skipped", error_message := none } }]
        before := none, after := none }).passed = false := by
  have := skip_transparency_amended
    { type := none, name := some "SW", line := 5
      steps := some
        [{ name := some "a", keyword := some "Given ", line := 6
           result := some { status := some "passed", error_message := none } },
         { name := some "b", keyword := some "When ", line := 7
           result := some { status := some "skipped", error_message := none } },
         { name := some "c", keyword := some "Then ", line := 8
           result := some { status := some "failed", error_message := some "boom" } },
         { name := some "d", keyword := some "And ", line := 9
           result := some { status := some "skipped", error_message := none } }]
      before := none, after := none }
      { name := some "a", keyword := some "Given ", line := 6
        result := some { status := some "passed", error_message := none } }
      { name := some "b", keyword := some "When ", line := 7
        result := some { status := some "skipped", error_message := none } }
      { name := some "c", keyword := some "Then ", line := 8
        result := some { status := some "failed", error_message := some "boom" } }
      { name := some "d", keyword := some "And ", line := 9
        result := some { status := some "skipped", error_message := none } }
      { status := some "failed", error_message := some "boom" }
      "failed" "boom"
      rfl rfl (by decide) (by decide) rfl rfl (by decide) (by decide) rfl
      (by decide) (by decide) (by decide)
  exact this.1

/-! ## Background exclusion and the Feature Aggregator -/

/-- The extractor's element loop is a filter of the backgrounds followed by
classification of everything else. -/
theorem processElements_eq_filter_map (elems : List Element) :
    processElements elems =
      (elems.filter (fun e => !(e.type == some "background"))).map classifyElement := by
  induction elems with
  | nil => rfl
  | cons e rest ih =>
    by_cases hbg : e.type == some "background"
    · simp [processElements, hbg, ih]
    · simp [processElements, hbg, ih]

/-- Removes every background element from every file entry of a report. -/
def stripBackgrounds (results : List Feature) : List Feature :=
  results.map fun f =>
    { f with elements :=
        f.elements.map (fun elems => elems.filter (fun e => !(e.type == some "background"))) }

theorem processElements_filter (elems : List Element) :
    processElements (elems.filter (fun e => !(e.type == some "background"))) =
      processElements elems := by
  rw [processElements_eq_filter_map, processElements_eq_filter_map, List.filter_filter]
  simp

/-- A background element never fails in the aggregator. -/
theorem elementFails_background (e : Element) (h : e.type = some "background") :
    elementFails e = false := by
  simp [elementFails, h]

theorem bgtest_and_elementFails (a : Element) :
    ((!(a.type == some "background")) && elementFails a) = elementFails a := by
  by_cases h : a.type = some "background"
  · simp [h, elementFails_background a h]
  · simp [h]

theorem any_elementFails_filter (elems : List Element) :
    (elems.filter (fun e => !(e.type == some "background"))).any elementFails =
      elems.any elementFails := by
  induction elems with
  | nil => rfl
  | cons e rest ih =>
    by_cases hbg : e.type = some "background"
    · simp [hbg, elementFails_background e hbg, ih]
    · simp [hbg, ih]

theorem parse_stripBackgrounds (results : List Feature) (path : String) :
    parseResultFileForFeature (stripBackgrounds results) path =
      parseResultFileForFeature results path := by
  induction results with
  | nil => rfl
  | cons f rest ih =>
    simp only [stripBackgrounds, List.map_cons]
    unfold parseResultFileForFeature
    have hpath :
        featurePathOf
          { f with elements :=
              f.elements.map (fun elems => elems.filter (fun e => !(e.type == some "background"))) } =
          featurePathOf f := rfl
    rw [hpath]
    by_cases hm : isSameFeaturePath path (featurePathOf f)
    · cases hel : f.elements with
      | none => simp [hm, hel, stripBackgrounds] at ih ⊢; exact ih
      | some elems => simp [hm, hel, processElements_filter]
    · simp [hm, stripBackgrounds] at ih ⊢; exact ih

theorem hasFeatureFailures_stripBackgrounds (results : List Feature) (path : String) :
    hasFeatureFailures (stripBackgrounds results) path =
      hasFeatureFailures results path := by
  induction results with
  | nil => rfl
  | cons f rest ih =>
    simp only [stripBackgrounds, List.map_cons]
    unfold hasFeatureFailures
    have hpath :
        featurePathOf
          { f with elements :=
              f.elements.map (fun elems => elems.filter (fun e => !(e.type == some "background"))) } =
          featurePathOf f := rfl
    rw [hpath]
    by_cases hm : isSameFeaturePath path (featurePathOf f)
    · cases hel : f.elements with
      | none => simp [hm, hel]
      | some elems => simp [hm, hel, bgtest_and_elementFails]
    · simp [hm, stripBackgrounds] at ih ⊢; exact ih

theorem foldl_checkCounters_failed (elems : List Element) (acc : Nat × Nat × Nat) :
    (elems.foldl checkCounters acc).2.2 =
      acc.2.2 + elems.countP (fun e => !(elementPassesCheck e)) := by
  induction elems generalizing acc with
  | nil => simp
  | cons e rest ih =>
    simp only [List.foldl_cons, List.countP_cons]
    rw [ih]
    unfold checkCounters
    by_cases hp : elementPassesCheck e <;> (simp [hp]; try omega)

theorem foldl_checkFoldFeature_failed (results : List Feature) (acc : Nat × Nat × Nat) :
    (results.foldl checkFoldFeature acc).2.2 =
      acc.2.2 +
        (results.map (fun f =>
          match f.elements with
          | some elems => elems.countP (fun e => !(elementPassesCheck e))
          | none => 0)).sum := by
  induction results generalizing acc with
  | nil => simp
  | cons f rest ih =>
    simp only [List.foldl_cons, List.map_cons, List.sum_cons]
    rw [ih]
    cases hel : f.elements with
    | none => simp [checkFoldFeature, hel]
    | some elems => simp [checkFoldFeature, hel, foldl_checkCounters_failed]; omega

/-- C1: Background exclusion, amended.  Background elements never contribute
to the Feature-Scoped Extractor or to the Feature Aggregator: removing all
of them from the report changes neither output.  The batch verdict
`checkCucumberResults`, however, counts background elements like scenarios:
any report containing a background element that fails its step check (for
example one with a non-passed step) makes the whole batch report failed. -/
theorem background_exclusion :
    (∀ (results : List Feature) (path : String),
      parseResultFileForFeature (stripBackgrounds results) path =
        parseResultFileForFeature results path) ∧
    (∀ (results : List Feature) (path : String),
      hasFeatureFailures (stripBackgrounds results) path =
        hasFeatureFailures results path) ∧
    (∀ (results : List Feature) (f : Feature) (elems : List Element) (e : Element),
      f ∈ results → f.elements = some elems → e ∈ elems →
      e.type = some "background" → elementPassesCheck e = false →
      checkCucumberResults results = false) := by
  refine ⟨parse_stripBackgrounds, hasFeatureFailures_stripBackgrounds, ?_⟩
  intro results f elems e hf hel he _hbg hfail
  obtain ⟨l1, l2, rfl⟩ := List.append_of_mem hf
  have h1 : 0 < elems.countP (fun e => !(elementPassesCheck e)) :=
    List.countP_pos_iff.mpr ⟨e, he, by simp [hfail]⟩
  have hpos : 0 <
      ((l1 ++ f :: l2).map (fun f =>
        match f.elements with
        | some elems => elems.countP (fun e => !(elementPassesCheck e))
        | none => 0)).sum := by
    simp only [List.map_append, List.map_cons, List.sum_append, List.sum_cons, hel]
    omega
  show (if ((l1 ++ f :: l2).foldl checkFoldFeature (0, 0, 0)).2.2 > 0 then false else true)
      = false
  rw [foldl_checkFoldFeature_failed]
  have hz : ((0, 0, 0) : Nat × Nat × Nat).2.2 = 0 := rfl
  rw [hz, Nat.zero_add, if_pos hpos]

/-- Counterexample to C1 as stated: a report whose single file entry holds a
failing background element and a passing scenario is judged failed by
`checkCucumberResults`, and judged passed once the background is removed —
the background element does affect the overall batch verdict. -/
theorem background_exclusion_cex :
    checkCucumberResults
      [{ uri := some "features/a.feature", id := none
         elements := some
           [{ type := some "background", name := some "BG", line := 3
              steps := some [{ name := some "b", keyword := some "Given ", line := 4
                               result := some { status := some "failed", error_message := some "bgerr" } }]
              before := none, after := none },
            { type := some "scenario", name := some "OK", line := 6
              steps := some [{ name := some "s", keyword := some "When ", line := 7
                               result := some { status := some "passed", error_message := none } }]
              before := none, after := none }] }] = false ∧
    checkCucumberResults
      [{ uri := some "features/a.feature", id := none
         elements := some
           [{ type := some "scenario", name := some "OK", line := 6
              steps := some [{ name := some "s", keyword := some "When ", line := 7
                               result := some { status := some "passed", error_message := none } }]
              before := none, after := none }] }] = true := by
  constructor
  · decide
  · decide

/-- Witness for C1's amended theorem: its batch-verdict part applied to the
concrete failing-background report. -/
theorem background_exclusion_witness :
    checkCucumberResults
      [{ uri := some "features/a.feature", id := none
         elements := some
           [{ type := some "background", name := some "BGW", line := 3
              steps := some [{ name := some "b", keyword := some "Given ", line := 4
                               result := some { status := some "failed", error_message := some "bgerr" } }]
              before := none, after := none }] }] = false := by
  exact background_exclusion.2.2
    [{ uri := some "features/a.feature", id := none
       elements := some
         [{ type := some "background", name := some "BGW", line := 3
            steps := some [{ name := some "b", keyword := some "Given ", line := 4
                             result := some { status := some "failed", error_message := some "bgerr" } }]
            before := none, after := none }] }]
    { uri := some "features/a.feature", id := none
      elements := some
        [{ type := some "background", name := some "BGW", line := 3
           steps := some [{ name := some "b", keyword := some "Given ", line := 4
                            result := some { status := some "failed", error_message := some "bgerr" } }]
           before := none, after := none }] }
    ([{ type := some "background", name := some "BGW", line := 3
        steps := some [{ name := some "b", keyword := some "Given ", line := 4
                         result := some { status := some "failed", error_message := some "bgerr" } }]
        before := none, after := none }])
    { type := some "background", name := some "BGW", line := 3
      steps := some [{ name := some "b", keyword := some "Given ", line := 4
                       result := some { status := some "failed", error_message := some "bgerr" } }]
      before := none, after := none }
    (by decide) rfl (by decide) rfl (by decide)

theorem hasFeatureFailures_of_nomatch (results : List Feature) (path : String)
    (h : ∀ f ∈ results, isSameFeaturePath path (featurePathOf f) = false) :
    hasFeatureFailures results path = false := by
  induction results with
  | nil => rfl
  | cons f rest ih =>
    unfold hasFeatureFailures
    rw [h f (List.mem_cons_self f rest)]
    simp only [Bool.false_eq_true, if_false]
    exact ih (fun g hg => h g (List.mem_cons_of_mem f hg))

theorem hasFeatureFailures_of_match (pre : List Feature) (f : Feature)
    (rest : List Feature) (elems : List Element) (path : String)
    (hpre : ∀ g ∈ pre, isSameFeaturePath path (featurePathOf g) = false)
    (hm : isSameFeaturePath path (featurePathOf f) = true)
    (hel : f.elements = some elems) :
    hasFeatureFailures (pre ++ f :: rest) path = elems.any elementFails := by
  induction pre with
  | nil =>
    unfold hasFeatureFailures
    simp [hm, hel]
  | cons g pre' ih =>
    have hg : isSameFeaturePath path (featurePathOf g) = false :=
      hpre g (List.mem_cons_self g pre')
    rw [List.cons_append]
    unfold hasFeatureFailures
    rw [hg]
    simp only [Bool.false_eq_true, if_false]
    exact ih (fun g' hg' => hpre g' (List.mem_cons_of_mem g hg'))

/-- The aggregator's element check, unpacked: a non-background element fails
exactly when a Before or After hook has a result whose status is not
"passed", or some step of a non-empty step array lacks a result or has a
non-passed status. -/
theorem elementFails_iff (e : Element) :
    elementFails e = true ↔
      ¬(e.type = some "background") ∧
        ((∃ hs, e.before = some hs ∧ ∃ h ∈ hs, hookFails h = true) ∨
         (∃ hs, e.after = some hs ∧ ∃ h ∈ hs, hookFails h = true) ∨
         (∃ ss, e.steps = some ss ∧ ss ≠ [] ∧ ∃ s ∈ ss, stepNotPassedStrict s = true)) := by
  by_cases hbg : e.type = some "background"
  · simp [elementFails, hbg]
  · have hbg' : (e.type == some "background") = false := by
      simp [hbg]
    cases hb : e.before <;> cases ha : e.after <;> cases hs : e.steps <;>
      simp [elementFails, hbg', hbg, hb, ha, hs, firstFailingHook,
        List.find?_isSome, List.any_eq_true, List.length_pos, and_assoc, or_assoc]

/-- C5: the Feature Aggregator is fail-open on an absent file and, on the
first matching file entry, reports a failure exactly when some
non-background element has a failing hook or a non-passed step. -/
theorem aggregator_fail_open :
    (∀ (results : List Feature) (path : String),
      (∀ f ∈ results, isSameFeaturePath path (featurePathOf f) = false) →
      hasFeatureFailures results path = false) ∧
    (∀ (pre : List Feature) (f : Feature) (rest : List Feature)
        (elems : List Element) (path : String),
      (∀ g ∈ pre, isSameFeaturePath path (featurePathOf g) = false) →
      isSameFeaturePath path (featurePathOf f) = true →
      f.elements = some elems →
      (hasFeatureFailures (pre ++ f :: rest) path = true ↔
        ∃ e ∈ elems, ¬(e.type = some "background") ∧
          ((∃ hs, e.before = some hs ∧ ∃ h ∈ hs, hookFails h = true) ∨
           (∃ hs, e.after = some hs ∧ ∃ h ∈ hs, hookFails h = true) ∨
           (∃ ss, e.steps = some ss ∧ ss ≠ [] ∧ ∃ s ∈ ss, stepNotPassedStrict s = true)))) := by
  refine ⟨hasFeatureFailures_of_nomatch, ?_⟩
  intro pre f rest elems path hpre hm hel
  rw [hasFeatureFailures_of_match pre f rest elems path hpre hm hel]
  rw [List.any_eq_true]
  constructor
  · rintro ⟨e, he, hfail⟩
    exact ⟨e, he, (elementFails_iff e).mp hfail⟩
  · rintro ⟨e, he, hfail⟩
    exact ⟨e, he, (elementFails_iff e).mpr hfail⟩

/-- Witness for C5: the fail-open part at a report whose single file entry
does not match the queried path, and the matched part at a report with one
failing scenario. -/
theorem aggregator_fail_open_witness :
    hasFeatureFailures
      [{ uri := some "features/b.feature", id := none
         elements := some
           [{ type := none, name := some "F", line := 2
              steps := some [{ name := some "s", keyword := some "Given ", line := 3
                               result := none }]
              before := none, after := none }] }]
      "/w/features/a.feature" = false ∧
    hasFeatureFailures
      [{ uri := some "features/a.feature", id := none
         elements := some
           [{ type := none, name := some "F", line := 2
              steps := some [{ name := some "s", keyword := some "Given ", line := 3
                               result := none }]
              before := none, after := none }] }]
      "/w/features/a.feature" = true := by
  constructor
  · exact aggregator_fail_open.1
      [{ uri := some "features/b.feature", id := none
         elements := some
           [{ type := none, name := some "F", line := 2
              steps := some [{ name := some "s", keyword := some "Given ", line := 3
                               result := none }]
              before := none, after := none }] }]
      "/w/features/a.feature" (by decide)
  · exact (aggregator_fail_open.2 []
      { uri := some "features/a.feature", id := none
        elements := some
          [{ type := none, name := some "F", line := 2
             steps := some [{ name := some "s", keyword := some "Given ", line := 3
                              result := none }]
             before := none, after := none }] }
      []
      ([{ type := none, name := some "F", line := 2
          steps := some [{ name := some "s", keyword := some "Given ", line := 3
                           result := none }]
          before := none, after := none }])
      "/w/features/a.feature" (by decide) (by decide) rfl).mpr
      ⟨{ type := none, name := some "F", line := 2
         steps := some [{ name := some "s", keyword := some "Given ", line := 3
                          result := none }]
         before := none, after := none },
        by decide, by decide,
        Or.inr (Or.inr ⟨[{ name := some "s", keyword := some "Given ", line := 3
                           result := none }], rfl, by decide,
          { name := some "s", keyword := some "Given ", line := 3, result := none },
          by decide, by decide⟩)⟩

/-! ## Batch Orchestrator error behaviour -/

/-- Counterexample to C8 as stated: invoking the Batch Orchestrator with an
empty target list returns the ordinary failed result `{ passed: false }`
(line 44 of `cucumberRunner.ts`) — it does not raise any error to the
caller. -/
theorem zero_targets_cex :
    runCucumberTestBatch
      { workspaceFolder := some "/w", glueLookup := .found ["org.example.steps"]
        userGlueInput := none, executeOutcome := .ok { passed := true, resultFile := some "r" } }
      [] = Except.ok { passed := false, resultFile := none } := rfl

/-- C8 as amended: an empty target list yields the recovered result
`{ passed: false }` rather than a hard error, and in fact no invocation of
the Batch Orchestrator propagates an error to the caller at all — the
surrounding try/catch converts every thrown error into `{ passed: false }`. -/
theorem zero_targets_amended (env : BatchEnv) (features : List FeatureToRun) :
    (runCucumberTestBatch env features).isOk = true ∧
      (features.length = 0 →
        runCucumberTestBatch env features =
          Except.ok { passed := false, resultFile := none }) := by
  constructor
  · unfold runCucumberTestBatch
    by_cases hlen : features.length = 0
    · simp [hlen, Except.isOk, Except.toBool]
    · cases hw : env.workspaceFolder with
      | none => simp [hlen, hw, Except.isOk, Except.toBool]
      | some w =>
        cases hg : env.glueLookup with
        | threw m => simp [hlen, hw, hg, Except.isOk, Except.toBool]
        | notFound =>
          cases hu : env.userGlueInput with
          | none => simp [hlen, hw, hg, hu, Except.isOk, Except.toBool]
          | some u =>
            cases he : env.executeOutcome with
            | ok r => simp [hlen, hw, hg, hu, he, Except.isOk, Except.toBool]
            | error m => simp [hlen, hw, hg, hu, he, Except.isOk, Except.toBool]
        | found ps =>
          cases he : env.executeOutcome with
          | ok r => simp [hlen, hw, hg, he, Except.isOk, Except.toBool]
          | error m => simp [hlen, hw, hg, he, Except.isOk, Except.toBool]
  · intro hlen
    unfold runCucumberTestBatch
    simp [hlen]

/-- Witness for C8's amended theorem at a concrete environment and the empty
target list. -/
theorem zero_targets_amended_witness :
    runCucumberTestBatch
      { workspaceFolder := some "/w", glueLookup := .notFound
        userGlueInput := some "org.example.steps"
        executeOutcome := .error "boom" }
      [] = Except.ok { passed := false, resultFile := none } := by
  exact (zero_targets_amended
    { workspaceFolder := some "/w", glueLookup := .notFound
      userGlueInput := some "org.example.steps"
      executeOutcome := .error "boom" }
    []).2 (by decide)

/-! ## Idempotence of the Tree Correlator -/

/-- Replaying the same event sequence leaves every final node state
unchanged: the last event recorded for an id in `E ++ E` is its last event
in `E`. -/
theorem finalStateFor_append_self (E : List RunEvent) (id : String) :
    finalStateFor (E ++ E) id = finalStateFor E id := by
  unfold finalStateFor
  rw [List.filter_append]
  cases E.filter (fun e => e.id == id) with
  | nil => rfl
  | cons a l => exact List.getLast?_append_of_ne_nil (a :: l) (List.cons_ne_nil a l)

/-- C9: the Tree Correlator is idempotent.  Running
`markChildrenFromResults` twice with the same report contents and the same
unmodified tree records, for every node id, the same final verdict (pass or
fail, message and location included) as running it once. -/
theorem tree_correlation_idempotent (results : List Feature) (path : String)
    (featureItem : TestItem) (id : String) :
    finalStateFor
        (markChildrenFromResults results path featureItem ++
          markChildrenFromResults results path featureItem) id =
      finalStateFor (markChildrenFromResults results path featureItem) id :=
  finalStateFor_append_self (markChildrenFromResults results path featureItem) id

/-! ## Boundary safety of the Path/Identity Matcher -/

theorem jsSplit_ne_nil (c : Char) (l : List Char) : jsSplit c l ≠ [] := by
  induction l with
  | nil => simp [jsSplit]
  | cons x xs ih =>
    unfold jsSplit
    by_cases hx : x = c
    · simp [hx]
    · simp only [hx, if_false]
      cases h : jsSplit c xs with
      | nil => simp
      | cons a t => simp

/-- Splitting distributes over an occurrence of the separator. -/
theorem jsSplit_append (c : Char) (a b : List Char) :
    jsSplit c (a ++ c :: b) = jsSplit c a ++ jsSplit c b := by
  induction a with
  | nil => simp [jsSplit]
  | cons x xs ih =>
    by_cases hx : x = c
    · simp only [List.cons_append]
      rw [jsSplit, jsSplit, if_pos hx, if_pos hx, ih, List.cons_append]
    · simp only [List.cons_append]
      rw [jsSplit, jsSplit, if_neg hx, if_neg hx, ih]
      cases h : jsSplit c xs with
      | nil => exact absurd h (jsSplit_ne_nil c xs)
      | cons h₀ t => simp [h]

theorem getLastD_append_right {α : Type} (l₁ l₂ : List α) (d : α) (h : l₂ ≠ []) :
    (l₁ ++ l₂).getLastD d = l₂.getLastD d := by
  rw [List.getLastD_eq_getLast?, List.getLastD_eq_getLast?,
    List.getLast?_append_of_ne_nil l₁ h]

/-- The filename of a file identity: the last path segment after
normalization (the quantity compared on line 212 of the source). -/
def fileNameOf (s : String) : List Char :=
  (jsSplit '/' (normalizePathChars s.data)).getLastD []

/-- Any successful match implies equal filenames: each of the three rules of
`isSameFeaturePath` forces the final path segments to agree. -/
theorem isSameFeaturePath_filename (A B : String)
    (h : isSameFeaturePath A B = true) : fileNameOf A = fileNameOf B := by
  unfold isSameFeaturePath at h
  by_cases h1 : normalizePathChars A.data = normalizePathChars B.data
  · unfold fileNameOf
    rw [h1]
  · rw [if_neg h1] at h
    by_cases h2 :
        List.isSuffixOf ('/' :: normalizePathChars B.data) (normalizePathChars A.data) = true
    · obtain ⟨t, ht⟩ := List.isSuffixOf_iff_suffix.mp h2
      unfold fileNameOf
      rw [← ht, jsSplit_append,
        getLastD_append_right _ _ _ (jsSplit_ne_nil '/' (normalizePathChars B.data))]
    · rw [if_neg (by simpa using h2)] at h
      by_cases h3 :
          (jsSplit '/' (normalizePathChars A.data)).getLastD [] ≠
            (jsSplit '/' (normalizePathChars B.data)).getLastD []
      · rw [if_pos h3] at h
        exact absurd h (by simp)
      · exact not_not.mp h3

/-- C4: path matching is boundary-safe.  Whenever the filenames (final
normalized path segments) of two file identities differ, the matcher
answers false; on the two concrete paths of the claim it answers false and
true respectively. -/
theorem path_matching_boundary_safe :
    (∀ A B : String, fileNameOf A ≠ fileNameOf B → isSameFeaturePath A B = false) ∧
    isSameFeaturePath "/proj/src/test/resources/features/login.feature"
      "features/user-login.feature" = false ∧
    isSameFeaturePath "/proj/src/test/resources/features/login.feature"
      "features/login.feature" = true := by
  refine ⟨?_, by decide, by decide⟩
  intro A B hne
  cases hb : isSameFeaturePath A B with
  | false => rfl
  | true => exact absurd (isSameFeaturePath_filename A B hb) hne

/-- Witness for C4: the universal boundary-safety part applied to the two
concrete paths with different filenames. -/
theorem path_matching_boundary_safe_witness :
    isSameFeaturePath "/proj/src/test/resources/features/login.feature"
      "features/user-login.feature" = false :=
  path_matching_boundary_safe.1
    "/proj/src/test/resources/features/login.feature"
    "features/user-login.feature" (by decide)

/-! ## Line addressing of the Tree Correlator -/

/-- Counterexample to C6 as stated: in a tree holding an outline scenario at
line 10 with an example-row leaf whose own location is line 13, a report
whose only verdict is for line 10 is applied to the example-row leaf as
well — the code extracts the line from the id segment after ":scenario:",
which is the parent scenario's line, not the leaf's own location line 13,
for which no verdict exists. -/
theorem correlator_line_addressing_cex :
    markChildrenFromResults
      [{ uri := some "features/f.feature", id := none
         elements := some
           [{ type := none, name := some "S", line := 10
              steps := some [{ name := some "s", keyword := some "Given ", line := 11
                               result := some { status := some "passed", error_message := none } }]
              before := none, after := none }] }]
      "/w/features/f.feature"
      (.mk "f.feature" (some "f.feature") 1
        [.mk "f.feature:scenario:10" (some "f.feature") 10
          [.mk "f.feature:scenario:10:example:13" (some "f.feature") 13 []]]) =
      [.passed "f.feature:scenario:10", .passed "f.feature:scenario:10:example:13"] ∧
    (parseResultFileForFeature
      [{ uri := some "features/f.feature", id := none
         elements := some
           [{ type := none, name := some "S", line := 10
              steps := some [{ name := some "s", keyword := some "Given ", line := 11
                               result := some { status := some "passed", error_message := none } }]
              before := none, after := none }] }]
      "/w/features/f.feature").all (fun r => r.line != 13) = true := by
  constructor
  · decide
  · decide

/-- C6 as amended: the correlator addresses nodes exclusively by the line
number encoded in the node id immediately after ":scenario:" (never by
name): for a node whose id splits as `[p, rest]` around ":scenario:" and
whose leading digits of `rest` before the first ":" parse to `n`, a verdict
is applied iff some verdict in the list has line `n`; for example-row nodes
(ids of the shape `path:scenario:N:example:M`) this `n` is the parent
scenario's line `N`, not the node's own location line `M`.  A node whose id
has no ":scenario:" segment never gets a verdict. -/
theorem correlator_line_addressing :
    (∀ (rs : List ScenarioResult) (id : String) (uri : Option String)
        (p rest : List Char) (n : Nat),
      splitScenarioId id = [p, rest] →
      parseIntJS ((jsSplit ':' rest).getD 0 []) = some n →
      (eventsForItem rs id uri ≠ [] ↔ ∃ r ∈ rs, r.line = n)) ∧
    (∀ (rs : List ScenarioResult) (id : String) (uri : Option String),
      (splitScenarioId id).length ≤ 1 → eventsForItem rs id uri = []) := by
  constructor
  · intro rs id uri p rest n hsplit hparse
    rw [List.getD_eq_getElem?_getD] at hparse
    cases hfind : rs.find? (fun r => r.line == n) with
    | none =>
      have hnone : ∀ r ∈ rs, r.line ≠ n := by
        intro r hr
        have := List.find?_eq_none.mp hfind r hr
        simpa using this
      refine iff_of_false ?_ ?_
      · simp [eventsForItem, hsplit, hparse, hfind]
      · rintro ⟨r, hr, hl⟩
        exact hnone r hr hl
    | some sr =>
      have hmem := List.mem_of_find?_eq_some hfind
      have hline : sr.line = n := by
        have := List.find?_some hfind
        simpa using this
      refine iff_of_true ?_ ⟨sr, hmem, hline⟩
      by_cases hp : sr.passed
      · simp [eventsForItem, hsplit, hparse, hfind, hp]
      · cases hfs : sr.failedStep with
        | some fs => simp [eventsForItem, hsplit, hparse, hfind, hp, hfs]
        | none => simp [eventsForItem, hsplit, hparse, hfind, hp, hfs]
  · intro rs id uri hle
    simp only [eventsForItem]
    rw [if_neg]
    omega

/-- Witness for C6's amended theorem: the example-row id
`f.feature:scenario:10:example:13` is matched through the scenario line 10,
so the single verdict at line 10 is applied to it. -/
theorem correlator_line_addressing_witness :
    eventsForItem [{ name := "S", line := 10, passed := true, failedStep := none }]
      "f.feature:scenario:10:example:13" (some "f.feature") ≠ [] := by
  exact (correlator_line_addressing.1
    [{ name := "S", line := 10, passed := true, failedStep := none }]
    "f.feature:scenario:10:example:13" (some "f.feature")
    "f.feature".data "10:example:13".data 10
    (by decide) (by decide)).mpr
    ⟨{ name := "S", line := 10, passed := true, failedStep := none }, by decide, rfl⟩

end CucumberRunner
